import Mathlib

/-!
Shallow embedding of the multi-provider geocoding resolution engine of
`src/backup/src/geocoding/smart_geocoder.py` (class `SmartGeocoder`).

Modelling conventions:
* Python floats are modelled as exact rationals (`ℚ`); every numeric literal in
  the source is an exact decimal.
* Wall-clock time is an integer number of seconds supplied by the environment
  (`Env.now`); `datetime.now()` reads it.  `timedelta(days=30)` is
  `thirtyDays = 30 * 86400` seconds.
* The MD5 hash of the lower-cased address (`_get_cache_key`) is modelled as the
  lower-cased address itself (the hash is treated as injective; collisions are
  not modelled).
* External collaborators (the Google and Nominatim network clients, the ML
  validator, the address processor, the district-centroid table) are fields of
  an `Env` record.  A provider call that raises or returns no match is `none`,
  matching the source, which catches every provider exception and converts it
  to `None`.
* The mutable `self.cache` dict is threaded explicitly as an association list
  (`Cache`); `cache[key] = v` is modelled by prepending, and lookup takes the
  most recent binding, which is exactly dict-overwrite semantics.
* Observable effects are collected in a trace of `Event`s: provider network
  calls, ML-validator consultations and cache writes.
-/

namespace CollegeLinks

/-- One entry of a Google-style `address_components` list: a `long_name`
together with its `types` tags. -/
structure AddrComponent where
  long_name : String
  types : List String
deriving DecidableEq, Repr

/-- A candidate produced by a provider adapter (`_geocode_google` /
`_geocode_nominatim`): coordinates, provider-local confidence, provider tag and
the payload fields used by validation scoring. -/
structure Candidate where
  latitude : ℚ
  longitude : ℚ
  confidence : ℚ
  source : String
  address_components : List AddrComponent
  formatted_address : String
  place_types : List String
deriving DecidableEq, Repr

/-- The result dict returned by `SmartGeocoder.geocode`.  `latitude`/`longitude`
are `none` exactly when the Python dict holds `None`.  `timestamp` is `none`
until `_cache_result` attaches one; `error` is `none` except on the terminal
failure dict. -/
structure GeoResult where
  latitude : Option ℚ
  longitude : Option ℚ
  confidence : ℚ
  source : String
  address_components : List AddrComponent
  formatted_address : String
  place_types : List String
  validation_score : ℚ
  error : Option String
  timestamp : Option ℤ
deriving DecidableEq, Repr

/-- The `components` dict of the metadata produced by
`AddressProcessor.process_address`. -/
structure Components where
  district : Option String
  state : Option String
  pin : Option String
  landmarks : List String
deriving DecidableEq, Repr

/-- Address metadata handed to validation and variation generation. -/
structure Metadata where
  components : Components
deriving DecidableEq, Repr

/-- Observable effects of a `geocode` call. -/
inductive Event where
  | googleCall (address : String)
  | nominatimCall (address : String)
  | mlCall
  | cacheWrite (key : String)
deriving DecidableEq, Repr

/-- The external world seen by `SmartGeocoder`: provider clients, the ML
validator, the address processor, the district-centroid table and the clock. -/
structure Env where
  google_api_key : Bool
  googleRaw : String → Option Candidate
  nominatimRaw : String → Option Candidate
  ml_validate : Candidate → Metadata → Bool × ℚ
  process_address : String → String × Metadata
  district_state : String → Option String
  now : ℤ

/-- Python truthiness of an optional string: `None` and `""` are falsy. -/
def optTruthy : Option String → Bool
  | none => false
  | some s => s != ""

/-- `self.INDIA_BOUNDS['min_lat']`. -/
def INDIA_min_lat : ℚ := 6.5546079
/-- `self.INDIA_BOUNDS['max_lat']`. -/
def INDIA_max_lat : ℚ := 35.6745457
/-- `self.INDIA_BOUNDS['min_lon']`. -/
def INDIA_min_lon : ℚ := 68.1113787
/-- `self.INDIA_BOUNDS['max_lon']`. -/
def INDIA_max_lon : ℚ := 97.395561

/-- `_is_within_india_bounds`: inclusive range check against the four fixed
bounds. -/
def is_within_india_bounds (lat lon : ℚ) : Bool :=
  decide (INDIA_min_lat ≤ lat) && decide (lat ≤ INDIA_max_lat) &&
  decide (INDIA_min_lon ≤ lon) && decide (lon ≤ INDIA_max_lon)

/-- `_extract_district`: first address component tagged
`administrative_area_level_2`. -/
def extract_district (r : Candidate) : Option String :=
  (r.address_components.find? (fun c => c.types.contains "administrative_area_level_2")).map
    (fun c => c.long_name)

/-- `_extract_state`: first address component tagged
`administrative_area_level_1`. -/
def extract_state (r : Candidate) : Option String :=
  (r.address_components.find? (fun c => c.types.contains "administrative_area_level_1")).map
    (fun c => c.long_name)

/-- `_extract_pin`: first address component tagged `postal_code`. -/
def extract_pin (r : Candidate) : Option String :=
  (r.address_components.find? (fun c => c.types.contains "postal_code")).map
    (fun c => c.long_name)

/-- The keyword set of `_has_education_keywords`. -/
def education_keywords : List String :=
  ["university", "college", "institute", "school", "campus",
   "vishwavidyalaya", "mahavidyalaya", "vidyalaya", "shikshan",
   "polytechnic", "academy", "education"]

/-- `needle in haystack` for Python strings: contiguous substring test on the
character lists. -/
def charsContain (needle : List Char) : List Char → Bool
  | [] => needle.isPrefixOf []
  | c :: rest => needle.isPrefixOf (c :: rest) || charsContain needle rest

/-- `kw in s` for Python strings. -/
def strContains (s kw : String) : Bool := charsContain kw.data s.data

/-- `_has_education_keywords`: keyword in the lower-cased formatted address, or
a `university`/`school` place type, or a keyword inside some address
component's lower-cased `long_name`. -/
def has_education_keywords (r : Candidate) : Bool :=
  let address := r.formatted_address.toLower
  let tys := r.place_types.map String.toLower
  (education_keywords.any (fun kw => strContains address kw)) ||
  (tys.contains "university" || tys.contains "school") ||
  (r.address_components.any (fun c =>
    education_keywords.any (fun kw => strContains c.long_name.toLower kw)))

/-- `weights['district_match']` in `_calculate_validation_score`. -/
def weights_district_match : ℚ := 0.3
/-- `weights['state_match']`. -/
def weights_state_match : ℚ := 0.2
/-- `weights['pin_match']`. -/
def weights_pin_match : ℚ := 0.15
/-- `weights['education_keywords']`. -/
def weights_education_keywords : ℚ := 0.15
/-- `weights['bounds_check']`. -/
def weights_bounds_check : ℚ := 0.2

/-- The district term of `_calculate_validation_score`: the metadata has a
`district` component and the extracted district is truthy and equal to it
case-insensitively. -/
def district_match (r : Candidate) (m : Metadata) : Bool :=
  match m.components.district with
  | none => false
  | some d =>
    match extract_district r with
    | none => false
    | some rd => (rd != "") && (rd.toLower == d.toLower)

/-- The state term of `_calculate_validation_score`. -/
def state_match (r : Candidate) (m : Metadata) : Bool :=
  match m.components.state with
  | none => false
  | some s =>
    match extract_state r with
    | none => false
    | some rs => (rs != "") && (rs.toLower == s.toLower)

/-- The PIN term of `_calculate_validation_score`: exact equality. -/
def pin_match (r : Candidate) (m : Metadata) : Bool :=
  match m.components.pin with
  | none => false
  | some p =>
    match extract_pin r with
    | none => false
    | some rp => (rp != "") && (rp == p)

/-- `_calculate_validation_score`: weighted sum of the five all-or-nothing
terms. -/
def calculate_validation_score (r : Candidate) (m : Metadata) : ℚ :=
  (if district_match r m then weights_district_match else 0)
  + (if state_match r m then weights_state_match else 0)
  + (if pin_match r m then weights_pin_match else 0)
  + (if has_education_keywords r then weights_education_keywords else 0)
  + (if is_within_india_bounds r.latitude r.longitude then weights_bounds_check else 0)

/-- `_validate_result` on a present candidate: bounds check, then ML
validation, then the provider-specific confidence floor (`< 0.6` rejected for
`google`, `< 0.7` rejected otherwise).  Also records whether the ML validator
was consulted. -/
def validate_result (env : Env) (r : Candidate) (m : Metadata) : Bool × List Event :=
  if !(is_within_india_bounds r.latitude r.longitude) then (false, [])
  else
    let ml := env.ml_validate r m
    if !ml.1 then (false, [Event.mlCall])
    else if r.source == "google" then
      (if r.confidence < 0.6 then (false, [Event.mlCall]) else (true, [Event.mlCall]))
    else
      (if r.confidence < 0.7 then (false, [Event.mlCall]) else (true, [Event.mlCall]))

/-- The in-memory `self.cache` dict: association list from cache key to stored
result; the most recent binding for a key wins (dict-overwrite semantics). -/
abbrev Cache := List (String × GeoResult)

/-- Dict lookup: first (most recent) binding for the key. -/
def cacheLookup (k : String) : Cache → Option GeoResult
  | [] => none
  | (k', v) :: rest => if k' == k then some v else cacheLookup k rest

/-- Dict assignment `self.cache[key] = result`. -/
def cacheInsert (k : String) (v : GeoResult) (c : Cache) : Cache := (k, v) :: c

/-- `_get_cache_key`: MD5 of the lower-cased address, modelled as the
lower-cased address itself (hash treated as injective). -/
def cache_key (address : String) : String := address.toLower

/-- `timedelta(days=30)` in seconds. -/
def thirtyDays : ℤ := 30 * 86400

/-- `_get_cached_result`: return the stored entry only when one exists and its
age is strictly below 30 days.  An entry without a timestamp cannot be produced
by `_cache_result`; it is treated as absent. -/
def get_cached_result (env : Env) (cache : Cache) (address : String) : Option GeoResult :=
  match cacheLookup (cache_key address) cache with
  | some r =>
    match r.timestamp with
    | some ts => if env.now - ts < thirtyDays then some r else none
    | none => none
  | none => none

/-- `_cache_result`: stamp the result with the current time, store it under the
address's key, and hand back the stamped dict (the Python code mutates and
stores the same object that `geocode` then returns). -/
def cache_result (env : Env) (cache : Cache) (address : String) (r : GeoResult) :
    GeoResult × Cache :=
  let stamped := { r with timestamp := some env.now }
  (stamped, cacheInsert (cache_key address) stamped cache)

/-- Promote an accepted candidate dict to the result dict returned by
`geocode`: the same fields plus the attached `validation_score`. -/
def Candidate.toResult (c : Candidate) (vscore : ℚ) : GeoResult :=
  { latitude := some c.latitude, longitude := some c.longitude,
    confidence := c.confidence, source := c.source,
    address_components := c.address_components,
    formatted_address := c.formatted_address, place_types := c.place_types,
    validation_score := vscore, error := none, timestamp := none }

/-- `_geocode_google`: no API key means no call at all; otherwise the client is
invoked (one `googleCall` event) and a present payload is converted to a
candidate with `source := "google"`.  Client exceptions are already `none` in
`Env.googleRaw`. -/
def geocode_google (env : Env) (address : String) : Option Candidate × List Event :=
  if !env.google_api_key then (none, [])
  else ((env.googleRaw address).map (fun c => { c with source := "google" }),
        [Event.googleCall address])

/-- `_geocode_nominatim`: always issues the call (one `nominatimCall` event); a
present payload becomes a candidate with `source := "nominatim"`. -/
def geocode_nominatim (env : Env) (address : String) : Option Candidate × List Event :=
  ((env.nominatimRaw address).map (fun c => { c with source := "nominatim" }),
   [Event.nominatimCall address])

/-- One provider attempt inside `geocode`: if the provider returned a candidate
and `_validate_result` passes, attach the validation score, cache under the
*original* address argument of `geocode`, and return the stored result;
otherwise report rejection/absence.  The trace records the provider call, any
ML consultation and the cache write. -/
def try_provider (env : Env) (address : String) (meta : Metadata) (cache : Cache)
    (pr : Option Candidate × List Event) : Option (GeoResult × Cache) × List Event :=
  match pr.1 with
  | none => (none, pr.2)
  | some cand =>
    let val := validate_result env cand meta
    if val.1 then
      let scored := Candidate.toResult cand (calculate_validation_score cand meta)
      let rc := cache_result env cache address scored
      (some (rc.1, rc.2), pr.2 ++ val.2 ++ [Event.cacheWrite (cache_key address)])
    else (none, pr.2 ++ val.2)

/-- The terminal failure dict of `geocode` (null coordinates, zero confidence,
`source='none'`, error tag set).  The Python dict carries no
`formatted_address`/`types` keys; those fields are empty here. -/
def failure_result : GeoResult :=
  { latitude := none, longitude := none, confidence := 0, source := "none",
    address_components := [], formatted_address := "", place_types := [],
    validation_score := 0, error := some "Geocoding failed for all attempts",
    timestamp := none }

/-- Python truthiness of the dict `geocode` returns.  Every such dict carries
at least the `confidence` and `source` keys, so it is never empty and `if
result:` is always true. -/
def result_truthy (_ : GeoResult) : Bool := true

/-- The `for variant in variations:` loop of `geocode`: run the attempt on each
variation in turn with the threaded cache, returning the first truthy result
(`if result: return result`); `none` in the first slot means the loop fell
through.  The recursive attempt itself never raises in this model, so the
`except Exception: continue` arm is vacuous. -/
def first_variation_result
    (attempt : String → Cache → GeoResult × Cache × List Event) :
    List String → Cache → Option GeoResult × Cache × List Event
  | [], cache => (none, cache, [])
  | v :: rest, cache =>
    match attempt v cache with
    | (r, c2, evs) =>
      if result_truthy r then (some r, c2, evs)
      else
        match first_variation_result attempt rest c2 with
        | (o, c3, evs') => (o, c3, evs ++ evs')

/-- `_generate_address_variations`: a landmark-stripped variant built from the
truthy district/state/pin components when landmarks are present, then a
state-appended variant when the state is missing but the district is known and
the district-centroid table resolves it. -/
def generate_address_variations (env : Env) (address : String) (m : Metadata) :
    List String :=
  let c := m.components
  let v1 : List String :=
    if c.landmarks != [] then
      let parts : List String :=
        (match c.district with
         | some d => if d != "" then [d] else []
         | none => [])
        ++ (match c.state with
            | some s => if s != "" then [s] else []
            | none => [])
        ++ (match c.pin with
            | some p => if p != "" then [p] else []
            | none => [])
      [String.intercalate ", " parts]
    else []
  let v2 : List String :=
    if !optTruthy c.state && optTruthy c.district then
      match c.district with
      | some d =>
        match env.district_state d with
        | some st => [address ++ ", " ++ st]
        | none => []
      | none => []
    else []
  v1 ++ v2

/-- The body of `SmartGeocoder.geocode` for one activation: cache check,
Google attempt, Nominatim attempt, then — when the retry budget is positive,
encoded by `recurse = some f` where `f` is the next-level `geocode` — the
variation loop, and finally the terminal failure dict. -/
def geocode_step (env : Env)
    (recurse : Option (String → Cache → GeoResult × Cache × List Event))
    (address : String) (cache : Cache) : GeoResult × Cache × List Event :=
  match get_cached_result env cache address with
  | some cached => (cached, cache, [])
  | none =>
    let pm := env.process_address address
    match try_provider env address pm.2 cache (geocode_google env pm.1) with
    | (some rc, evsG) => (rc.1, rc.2, evsG)
    | (none, evsG) =>
      match try_provider env address pm.2 cache (geocode_nominatim env pm.1) with
      | (some rc, evsN) => (rc.1, rc.2, evsG ++ evsN)
      | (none, evsN) =>
        match recurse with
        | some f =>
          match first_variation_result f (generate_address_variations env pm.1 pm.2) cache with
          | (some r, c2, evsV) => (r, c2, evsG ++ evsN ++ evsV)
          | (none, c2, evsV) => (failure_result, c2, evsG ++ evsN ++ evsV)
        | none => (failure_result, cache, evsG ++ evsN)

/-- `SmartGeocoder.geocode(address, retry_count)`: the recursion of the
variation-retry step, structural on the retry budget (`retry_count - 1` at each
recursive call; no recursion once the budget is 0). -/
def geocode (env : Env) : Nat → String → Cache → GeoResult × Cache × List Event
  | 0 => geocode_step env none
  | k + 1 => geocode_step env (some (geocode env k))

/-! ### Fuel-indexed variant of the recursion (termination witness)

`geocode` is defined above by structural recursion on the retry budget, which
is itself the termination argument of the source recursion (`retry_count - 1`
at every recursive call, no recursion at budget 0, finitely many variations).
To state that bound as a theorem, `geocode_fuel` re-runs the same step function
under an explicit fuel counter and returns `none` when the fuel is exhausted;
proving that fuel `retry + 1` always suffices shows every call chain has depth
at most `retry + 1`. -/

/-- The variation loop under fuel: a `none` from the attempt (fuel exhausted in
the recursive call) aborts the whole loop. -/
def first_variation_result_fuel
    (attempt : String → Cache → Option (GeoResult × Cache × List Event)) :
    List String → Cache → Option (Option GeoResult × Cache × List Event)
  | [], cache => some (none, cache, [])
  | v :: rest, cache =>
    match attempt v cache with
    | none => none
    | some (r, c2, evs) =>
      if result_truthy r then some (some r, c2, evs)
      else
        match first_variation_result_fuel attempt rest c2 with
        | some (o, c3, evs') => some (o, c3, evs ++ evs')
        | none => none

/-- The body of `geocode` under a fallible recursive attempt. -/
def geocode_step_fuel (env : Env)
    (recurse : Option (String → Cache → Option (GeoResult × Cache × List Event)))
    (address : String) (cache : Cache) : Option (GeoResult × Cache × List Event) :=
  match get_cached_result env cache address with
  | some cached => some (cached, cache, [])
  | none =>
    let pm := env.process_address address
    match try_provider env address pm.2 cache (geocode_google env pm.1) with
    | (some rc, evsG) => some (rc.1, rc.2, evsG)
    | (none, evsG) =>
      match try_provider env address pm.2 cache (geocode_nominatim env pm.1) with
      | (some rc, evsN) => some (rc.1, rc.2, evsG ++ evsN)
      | (none, evsN) =>
        match recurse with
        | some f =>
          match first_variation_result_fuel f (generate_address_variations env pm.1 pm.2) cache with
          | some (some r, c2, evsV) => some (r, c2, evsG ++ evsN ++ evsV)
          | some (none, c2, evsV) => some (failure_result, c2, evsG ++ evsN ++ evsV)
          | none => none
        | none => some (failure_result, cache, evsG ++ evsN)

/-- `geocode` under an explicit fuel counter: `none` means the fuel ran out
before the retry recursion bottomed out. -/
def geocode_fuel (env : Env) : Nat → Nat → String → Cache →
    Option (GeoResult × Cache × List Event)
  | 0, _, _, _ => none
  | _ + 1, 0, address, cache => geocode_step_fuel env none address cache
  | fuel + 1, k + 1, address, cache =>
    geocode_step_fuel env (some (geocode_fuel env fuel k)) address cache

/-! ### Invariant predicates -/

/-- The coordinates of a result, when both are present, pass the India bounds
check. -/
def ResultInBounds (r : GeoResult) : Prop :=
  ∀ la lo, r.latitude = some la → r.longitude = some lo →
    is_within_india_bounds la lo = true

/-- Every stored cache value satisfies `ResultInBounds`. -/
def CacheInBounds (c : Cache) : Prop := ∀ p ∈ c, ResultInBounds p.2

/-- No stored cache value carries the error tag (failures are never cached, so
any cache the geocoder itself built satisfies this). -/
def CacheNoError (c : Cache) : Prop := ∀ p ∈ c, p.2.error = none

/-! ### Concrete fixtures for witnesses and counterexamples -/

/-- Metadata with no recognised components. -/
def metaEmpty : Metadata := ⟨⟨none, none, none, []⟩⟩

/-- A minimal environment: no Google key, providers always absent, permissive
untrained ML validator, identity address processor, clock at 0. -/
def envNone : Env :=
  { google_api_key := false
    googleRaw := fun _ => none
    nominatimRaw := fun _ => none
    ml_validate := fun _ _ => (true, 0.5)
    process_address := fun a => (a, metaEmpty)
    district_state := fun _ => none
    now := 0 }

/-- A stored cache value: an accepted in-bounds result stamped at time 0. -/
def storedFresh : GeoResult :=
  { latitude := some 20, longitude := some 77, confidence := 0.8,
    source := "google", address_components := [], formatted_address := "",
    place_types := [], validation_score := 0.2, error := none,
    timestamp := some 0 }

/-- One-entry cache holding `storedFresh` under the key of `"addr"`. -/
def cacheFresh : Cache := [(cache_key "addr", storedFresh)]

/-- Environment whose clock sits exactly 30 days after `storedFresh`'s
timestamp. -/
def envBoundary : Env := { envNone with now := thirtyDays }

/-- A Google-style candidate on the floor boundary: confidence exactly 0.6,
coordinates inside India. -/
def candFloor : Candidate :=
  { latitude := 20, longitude := 77, confidence := 0.6, source := "google",
    address_components := [], formatted_address := "", place_types := [] }

/-- The spec's out-of-region scenario coordinates (New York City). -/
def candNYC : Candidate :=
  { latitude := 40.7128, longitude := -74.0060, confidence := 0.95,
    source := "google", address_components := [], formatted_address := "",
    place_types := [] }

/-- A candidate matching all five validation-score terms against `metaFull`. -/
def candFull : Candidate :=
  { latitude := 28.5449756, longitude := 77.1926225, confidence := 0.95,
    source := "google",
    address_components :=
      [⟨"South Delhi", ["administrative_area_level_2"]⟩,
       ⟨"Delhi", ["administrative_area_level_1"]⟩,
       ⟨"110016", ["postal_code"]⟩],
    formatted_address := "IIT Campus, New Delhi", place_types := [] }

/-- Metadata matching `candFull` (district and state differ in case to exercise
the case-insensitive comparison). -/
def metaFull : Metadata := ⟨⟨some "south delhi", some "DELHI", some "110016", []⟩⟩

/-- A valid in-bounds Nominatim payload used by the variation scenarios. -/
def candNom : Candidate :=
  { latitude := 20, longitude := 77, confidence := 0.8, source := "nominatim",
    address_components := [], formatted_address := "", place_types := [] }

/-- Metadata of the failing address `"X"` in the variation scenario: a landmark
plus a known district and no state, so that two variations are generated
(`"D"` and `"X, ST"`). -/
def metaX : Metadata := ⟨⟨some "D", none, none, ["L"]⟩⟩

/-- Environment for the variation-retry scenario: no Google key; Nominatim
fails on `"X"` and on the first variation `"D"` but would succeed on the second
variation `"X, ST"`. -/
def envVar : Env :=
  { google_api_key := false
    googleRaw := fun _ => none
    nominatimRaw := fun a => if a == "X, ST" then some candNom else none
    ml_validate := fun _ _ => (true, 0.5)
    process_address := fun a => if a == "X" then ("X", metaX) else (a, metaEmpty)
    district_state := fun d => if d == "D" then some "ST" else none
    now := 0 }

/-- A valid in-bounds Google payload for the frame scenario. -/
def candG : Candidate :=
  { latitude := 20, longitude := 77, confidence := 0.9, source := "google",
    address_components := [], formatted_address := "", place_types := [] }

/-- Environment for the cross-key frame scenario: Google is configured but has
no match for `"A"`; the first variation `"D"` resolves directly through
Google. -/
def envFrame : Env :=
  { google_api_key := true
    googleRaw := fun a => if a == "D" then some candG else none
    nominatimRaw := fun _ => none
    ml_validate := fun _ _ => (true, 0.5)
    process_address := fun a => if a == "A" then ("A", metaX) else (a, metaEmpty)
    district_state := fun d => if d == "D" then some "ST" else none
    now := 0 }

/-- The stored result produced when `envFrame` resolves the variation `"D"`
through Google: `candG` promoted to a result, scored (only the bounds term
matches, giving 0.2) and stamped at time 0. -/
def frameResult : GeoResult :=
  { latitude := some 20, longitude := some 77, confidence := 0.9,
    source := "google", address_components := [], formatted_address := "",
    place_types := [], validation_score := 0.2, error := none,
    timestamp := some 0 }

/-! ## Helper lemmas -/

theorem geocode_zero (env : Env) (a : String) (cache : Cache) :
    geocode env 0 a cache = geocode_step env none a cache := rfl

theorem geocode_succ (env : Env) (k : Nat) (a : String) (cache : Cache) :
    geocode env (k + 1) a cache = geocode_step env (some (geocode env k)) a cache := rfl

theorem validate_result_bounds {env : Env} {r : Candidate} {m : Metadata}
    (h : (validate_result env r m).1 = true) :
    is_within_india_bounds r.latitude r.longitude = true := by
  cases hb : is_within_india_bounds r.latitude r.longitude with
  | false => rw [validate_result, hb] at h; simp at h
  | true => rfl

theorem cacheLookup_mem {k : String} :
    ∀ {c : Cache} {r : GeoResult}, cacheLookup k c = some r → ∃ k', (k', r) ∈ c := by
  intro c
  induction c with
  | nil => intro r h; simp [cacheLookup] at h
  | cons p rest ih =>
    intro r h
    obtain ⟨k', v⟩ := p
    rw [cacheLookup] at h
    by_cases hk : (k' == k) = true
    · rw [if_pos hk] at h
      injection h with hvr
      exact ⟨k', by rw [← hvr]; exact List.mem_cons_self _ _⟩
    · rw [if_neg hk] at h
      obtain ⟨k'', hm⟩ := ih h
      exact ⟨k'', List.mem_cons_of_mem _ hm⟩

theorem get_cached_result_lookup {env : Env} {cache : Cache} {a : String} {r : GeoResult}
    (h : get_cached_result env cache a = some r) :
    cacheLookup (cache_key a) cache = some r := by
  unfold get_cached_result at h
  cases hl : cacheLookup (cache_key a) cache with
  | none => rw [hl] at h; simp at h
  | some r' =>
    rw [hl] at h
    cases hts : r'.timestamp with
    | none => simp [hts] at h
    | some ts =>
      by_cases hlt : env.now - ts < thirtyDays
      · simp only [hts, if_pos hlt, Option.some.injEq] at h
        subst h
        rfl
      · simp [hts, if_neg hlt] at h

theorem get_cached_result_congr {env : Env} {c1 c2 : Cache} {a : String}
    (h : cacheLookup (cache_key a) c1 = cacheLookup (cache_key a) c2) :
    get_cached_result env c1 a = get_cached_result env c2 a := by
  unfold get_cached_result
  rw [h]

theorem try_provider_absent {env : Env} {a : String} {m : Metadata} {cache : Cache}
    {pr : Option Candidate × List Event} (h : pr.1 = none) :
    try_provider env a m cache pr = (none, pr.2) := by
  unfold try_provider
  rw [h]

theorem try_provider_rejected {env : Env} {a : String} {m : Metadata} {cache : Cache}
    {pr : Option Candidate × List Event} {cand : Candidate} (h : pr.1 = some cand)
    (hv : (validate_result env cand m).1 = false) :
    try_provider env a m cache pr = (none, pr.2 ++ (validate_result env cand m).2) := by
  unfold try_provider
  rw [h]
  simp [hv]

theorem try_provider_accepted {env : Env} {a : String} {m : Metadata} {cache : Cache}
    {pr : Option Candidate × List Event} {cand : Candidate} (h : pr.1 = some cand)
    (hv : (validate_result env cand m).1 = true) :
    try_provider env a m cache pr =
      (some ({ Candidate.toResult cand (calculate_validation_score cand m) with
                 timestamp := some env.now },
             cacheInsert (cache_key a)
               { Candidate.toResult cand (calculate_validation_score cand m) with
                   timestamp := some env.now } cache),
       pr.2 ++ (validate_result env cand m).2 ++ [Event.cacheWrite (cache_key a)]) := by
  unfold try_provider
  rw [h]
  simp [hv, cache_result]

theorem try_provider_some_inv {env : Env} {a : String} {m : Metadata} {cache : Cache}
    {pr : Option Candidate × List Event} {rc : GeoResult × Cache} {evs : List Event}
    (h : try_provider env a m cache pr = (some rc, evs)) :
    ∃ cand, pr.1 = some cand ∧ (validate_result env cand m).1 = true ∧
      rc.1 = { Candidate.toResult cand (calculate_validation_score cand m) with
                 timestamp := some env.now } ∧
      rc.2 = cacheInsert (cache_key a) rc.1 cache := by
  cases hp : pr.1 with
  | none => rw [try_provider_absent hp] at h; simp at h
  | some cand =>
    cases hv : (validate_result env cand m).1 with
    | false => rw [try_provider_rejected hp hv] at h; simp at h
    | true =>
      rw [try_provider_accepted hp hv] at h
      rw [Prod.ext_iff] at h
      obtain ⟨h1, -⟩ := h
      simp only [Option.some.injEq] at h1
      refine ⟨cand, rfl, hv, ?_, ?_⟩ <;> rw [← h1]

theorem first_variation_result_cons
    (attempt : String → Cache → GeoResult × Cache × List Event)
    (v : String) (rest : List String) (cache : Cache) :
    first_variation_result attempt (v :: rest) cache =
      (some (attempt v cache).1, (attempt v cache).2.1, (attempt v cache).2.2) := by
  rcases h : attempt v cache with ⟨r, c2, evs⟩
  simp [first_variation_result, h, result_truthy]

theorem geocode_step_hit {env : Env}
    {recurse : Option (String → Cache → GeoResult × Cache × List Event)}
    {a : String} {cache : Cache} {r : GeoResult}
    (h : get_cached_result env cache a = some r) :
    geocode_step env recurse a cache = (r, cache, []) := by
  unfold geocode_step
  rw [h]

theorem geocode_step_google_accept {env : Env}
    {recurse : Option (String → Cache → GeoResult × Cache × List Event)}
    {a : String} {cache : Cache} {rc : GeoResult × Cache} {evsG : List Event}
    (hmiss : get_cached_result env cache a = none)
    (hg : try_provider env a (env.process_address a).2 cache
            (geocode_google env (env.process_address a).1) = (some rc, evsG)) :
    geocode_step env recurse a cache = (rc.1, rc.2, evsG) := by
  unfold geocode_step
  rw [hmiss]
  simp only [hg]

theorem geocode_step_nominatim_accept {env : Env}
    {recurse : Option (String → Cache → GeoResult × Cache × List Event)}
    {a : String} {cache : Cache} {evsG : List Event} {rc : GeoResult × Cache}
    {evsN : List Event}
    (hmiss : get_cached_result env cache a = none)
    (hg : try_provider env a (env.process_address a).2 cache
            (geocode_google env (env.process_address a).1) = (none, evsG))
    (hn : try_provider env a (env.process_address a).2 cache
            (geocode_nominatim env (env.process_address a).1) = (some rc, evsN)) :
    geocode_step env recurse a cache = (rc.1, rc.2, evsG ++ evsN) := by
  unfold geocode_step
  rw [hmiss]
  simp only [hg, hn]

theorem geocode_step_fail_none {env : Env} {a : String} {cache : Cache}
    {evsG evsN : List Event}
    (hmiss : get_cached_result env cache a = none)
    (hg : try_provider env a (env.process_address a).2 cache
            (geocode_google env (env.process_address a).1) = (none, evsG))
    (hn : try_provider env a (env.process_address a).2 cache
            (geocode_nominatim env (env.process_address a).1) = (none, evsN)) :
    geocode_step env none a cache = (failure_result, cache, evsG ++ evsN) := by
  unfold geocode_step
  rw [hmiss]
  simp only [hg, hn]

theorem geocode_step_rec_nil {env : Env}
    {f : String → Cache → GeoResult × Cache × List Event}
    {a : String} {cache : Cache} {evsG evsN : List Event}
    (hmiss : get_cached_result env cache a = none)
    (hg : try_provider env a (env.process_address a).2 cache
            (geocode_google env (env.process_address a).1) = (none, evsG))
    (hn : try_provider env a (env.process_address a).2 cache
            (geocode_nominatim env (env.process_address a).1) = (none, evsN))
    (hvars : generate_address_variations env (env.process_address a).1
              (env.process_address a).2 = []) :
    geocode_step env (some f) a cache = (failure_result, cache, evsG ++ evsN ++ []) := by
  unfold geocode_step
  rw [hmiss]
  simp only [hg, hn, hvars, first_variation_result]

theorem geocode_step_rec_cons {env : Env}
    {f : String → Cache → GeoResult × Cache × List Event}
    {a v : String} {rest : List String} {cache : Cache} {evsG evsN : List Event}
    (hmiss : get_cached_result env cache a = none)
    (hg : try_provider env a (env.process_address a).2 cache
            (geocode_google env (env.process_address a).1) = (none, evsG))
    (hn : try_provider env a (env.process_address a).2 cache
            (geocode_nominatim env (env.process_address a).1) = (none, evsN))
    (hvars : generate_address_variations env (env.process_address a).1
              (env.process_address a).2 = v :: rest) :
    geocode_step env (some f) a cache =
      ((f v cache).1, (f v cache).2.1, evsG ++ evsN ++ (f v cache).2.2) := by
  unfold geocode_step
  rw [hmiss]
  simp only [hg, hn, hvars, first_variation_result_cons]

theorem try_provider_some_shape {env : Env} {a : String} {m : Metadata} {cache : Cache}
    {pr : Option Candidate × List Event} {rc : GeoResult × Cache} {evs : List Event}
    (h : try_provider env a m cache pr = (some rc, evs)) :
    (∃ cand, (validate_result env cand m).1 = true ∧
       rc.1.latitude = some cand.latitude ∧ rc.1.longitude = some cand.longitude) ∧
    rc.1.error = none ∧
    rc.2 = cacheInsert (cache_key a) rc.1 cache := by
  obtain ⟨cand, hp, hv, h1, h2⟩ := try_provider_some_inv h
  refine ⟨⟨cand, hv, ?_, ?_⟩, ?_, h2⟩ <;> (rw [h1]; simp [Candidate.toResult])

theorem failure_result_inbounds : ResultInBounds failure_result := by
  intro la lo h1 h2
  simp [failure_result] at h1

theorem accepted_result_bounds {env : Env} {a : String} {m : Metadata} {cache : Cache}
    {pr : Option Candidate × List Event} {rc : GeoResult × Cache} {evs : List Event}
    (h : try_provider env a m cache pr = (some rc, evs)) (hc : CacheInBounds cache) :
    ResultInBounds rc.1 ∧ CacheInBounds rc.2 := by
  obtain ⟨⟨cand, hv, hla, hlo⟩, -, h2⟩ := try_provider_some_shape h
  have hr : ResultInBounds rc.1 := by
    intro la lo hla' hlo'
    rw [hla] at hla'
    rw [hlo] at hlo'
    injection hla' with e1
    injection hlo' with e2
    rw [← e1, ← e2]
    exact validate_result_bounds hv
  refine ⟨hr, ?_⟩
  rw [h2]
  intro p hp
  rcases List.mem_cons.mp hp with h' | h'
  · rw [h']
    exact hr
  · exact hc _ h'

theorem accepted_result_no_error {env : Env} {a : String} {m : Metadata} {cache : Cache}
    {pr : Option Candidate × List Event} {rc : GeoResult × Cache} {evs : List Event}
    (h : try_provider env a m cache pr = (some rc, evs)) (hc : CacheNoError cache) :
    rc.1.error = none ∧ CacheNoError rc.2 := by
  obtain ⟨-, herr, h2⟩ := try_provider_some_shape h
  refine ⟨herr, ?_⟩
  rw [h2]
  intro p hp
  rcases List.mem_cons.mp hp with h' | h'
  · rw [h']
    exact herr
  · exact hc _ h'

theorem geocode_step_bounds (env : Env)
    (recurse : Option (String → Cache → GeoResult × Cache × List Event))
    (a : String) (cache : Cache)
    (hrec : ∀ f, recurse = some f → ∀ v c, CacheInBounds c →
      ResultInBounds (f v c).1 ∧ CacheInBounds (f v c).2.1)
    (hc : CacheInBounds cache) :
    ResultInBounds (geocode_step env recurse a cache).1 ∧
    CacheInBounds (geocode_step env recurse a cache).2.1 := by
  cases hget : get_cached_result env cache a with
  | some r =>
    rw [geocode_step_hit hget]
    obtain ⟨k', hm⟩ := cacheLookup_mem (get_cached_result_lookup hget)
    exact ⟨hc _ hm, hc⟩
  | none =>
    rcases hg : try_provider env a (env.process_address a).2 cache
        (geocode_google env (env.process_address a).1) with ⟨og, evsG⟩
    cases og with
    | some rc =>
      rw [geocode_step_google_accept hget hg]
      exact accepted_result_bounds hg hc
    | none =>
      rcases hn : try_provider env a (env.process_address a).2 cache
          (geocode_nominatim env (env.process_address a).1) with ⟨onm, evsN⟩
      cases onm with
      | some rc =>
        rw [geocode_step_nominatim_accept hget hg hn]
        exact accepted_result_bounds hn hc
      | none =>
        cases recurse with
        | none =>
          rw [geocode_step_fail_none hget hg hn]
          exact ⟨failure_result_inbounds, hc⟩
        | some f =>
          cases hvars : generate_address_variations env (env.process_address a).1
              (env.process_address a).2 with
          | nil =>
            rw [geocode_step_rec_nil hget hg hn hvars]
            exact ⟨failure_result_inbounds, hc⟩
          | cons v rest =>
            rw [geocode_step_rec_cons hget hg hn hvars]
            exact hrec f rfl v cache hc

theorem geocode_step_failure_frame (env : Env)
    (recurse : Option (String → Cache → GeoResult × Cache × List Event))
    (a : String) (cache : Cache)
    (hrec : ∀ f, recurse = some f → ∀ v c, CacheNoError c →
      (((f v c).1.error.isSome = true → (f v c).1 = failure_result ∧ (f v c).2.1 = c) ∧
       CacheNoError (f v c).2.1))
    (hc : CacheNoError cache) :
    ((geocode_step env recurse a cache).1.error.isSome = true →
      (geocode_step env recurse a cache).1 = failure_result ∧
      (geocode_step env recurse a cache).2.1 = cache) ∧
    CacheNoError (geocode_step env recurse a cache).2.1 := by
  cases hget : get_cached_result env cache a with
  | some r =>
    rw [geocode_step_hit hget]
    obtain ⟨k', hm⟩ := cacheLookup_mem (get_cached_result_lookup hget)
    refine ⟨fun herr => ?_, hc⟩
    rw [hc _ hm] at herr
    simp at herr
  | none =>
    rcases hg : try_provider env a (env.process_address a).2 cache
        (geocode_google env (env.process_address a).1) with ⟨og, evsG⟩
    cases og with
    | some rc =>
      rw [geocode_step_google_accept hget hg]
      obtain ⟨herr, hcn⟩ := accepted_result_no_error hg hc
      refine ⟨fun habs => ?_, hcn⟩
      rw [herr] at habs
      simp at habs
    | none =>
      rcases hn : try_provider env a (env.process_address a).2 cache
          (geocode_nominatim env (env.process_address a).1) with ⟨onm, evsN⟩
      cases onm with
      | some rc =>
        rw [geocode_step_nominatim_accept hget hg hn]
        obtain ⟨herr, hcn⟩ := accepted_result_no_error hn hc
        refine ⟨fun habs => ?_, hcn⟩
        rw [herr] at habs
        simp at habs
      | none =>
        cases recurse with
        | none =>
          rw [geocode_step_fail_none hget hg hn]
          exact ⟨fun _ => ⟨rfl, rfl⟩, hc⟩
        | some f =>
          cases hvars : generate_address_variations env (env.process_address a).1
              (env.process_address a).2 with
          | nil =>
            rw [geocode_step_rec_nil hget hg hn hvars]
            exact ⟨fun _ => ⟨rfl, rfl⟩, hc⟩
          | cons v rest =>
            rw [geocode_step_rec_cons hget hg hn hvars]
            exact hrec f rfl v cache hc

/-! ## Claim theorems -/

/-- C4: a non-expired cache hit makes `geocode` return the cached result
immediately, with the cache unchanged and an empty effect trace (zero provider
calls, no ML consultation, no bounds check, no validation scoring, no cache
write); consequently repeated calls on such an address return identical
results. -/
theorem geocode_cache_hit (env : Env) (n : Nat) (a : String) (cache : Cache)
    (r : GeoResult) (h : get_cached_result env cache a = some r) :
    geocode env n a cache = (r, cache, []) := by
  cases n with
  | zero => rw [geocode_zero]; unfold geocode_step; rw [h]
  | succ k => rw [geocode_succ]; unfold geocode_step; rw [h]

/-- Witness for C4: `"addr"` has a fresh entry in `cacheFresh`, and `geocode`
returns it unchanged with an empty trace. -/
theorem geocode_cache_hit_witness :
    geocode envNone 5 "addr" cacheFresh = (storedFresh, cacheFresh, []) :=
  geocode_cache_hit envNone 5 "addr" cacheFresh storedFresh (by with_unfolding_all decide)

/-- C5: for a candidate that passed the bounds check and ML acceptance,
`_validate_result` applies the provider-specific confidence floor with an
inclusive boundary: a google candidate is accepted iff its confidence is
≥ 0.6, a nominatim candidate iff it is ≥ 0.7. -/
theorem validate_result_confidence_floor (env : Env) (cand : Candidate) (m : Metadata)
    (hb : is_within_india_bounds cand.latitude cand.longitude = true)
    (hml : (env.ml_validate cand m).1 = true) :
    (cand.source = "google" →
      ((validate_result env cand m).1 = true ↔ (0.6 : ℚ) ≤ cand.confidence)) ∧
    (cand.source = "nominatim" →
      ((validate_result env cand m).1 = true ↔ (0.7 : ℚ) ≤ cand.confidence)) := by
  constructor
  · intro hs
    by_cases hc : cand.confidence < 0.6
    · simp [validate_result, hb, hml, hs, hc, not_le.2 hc]
    · simp [validate_result, hb, hml, hs, hc, not_lt.1 hc]
  · intro hs
    by_cases hc : cand.confidence < 0.7
    · simp [validate_result, hb, hml, hs, hc, not_le.2 hc]
    · simp [validate_result, hb, hml, hs, hc, not_lt.1 hc]

/-- Witness for C5: the boundary google candidate with confidence exactly 0.6
is accepted. -/
theorem validate_result_confidence_floor_witness :
    (validate_result envNone candFloor metaEmpty).1 = true :=
  ((validate_result_confidence_floor envNone candFloor metaEmpty
      (by with_unfolding_all decide) rfl).1 rfl).2
    (by with_unfolding_all decide)

/-- C6: the five validation-score weights sum to exactly 1, and a candidate
matching all five all-or-nothing terms scores exactly 1. -/
theorem validation_score_weights :
    weights_district_match + weights_state_match + weights_pin_match +
      weights_education_keywords + weights_bounds_check = 1 ∧
    ∀ r m, district_match r m = true → state_match r m = true →
      pin_match r m = true → has_education_keywords r = true →
      is_within_india_bounds r.latitude r.longitude = true →
      calculate_validation_score r m = 1 := by
  constructor
  · with_unfolding_all decide
  · intro r m h1 h2 h3 h4 h5
    unfold calculate_validation_score
    rw [h1, h2, h3, h4, h5]
    simp only [if_true]
    with_unfolding_all decide

/-- Witness for C6: a candidate matching district (case-insensitively), state,
PIN, education keyword and bounds scores exactly 1. -/
theorem validation_score_weights_witness :
    calculate_validation_score candFull metaFull = 1 :=
  validation_score_weights.2 candFull metaFull
    (by with_unfolding_all decide) (by with_unfolding_all decide)
    (by with_unfolding_all decide) (by with_unfolding_all decide)
    (by with_unfolding_all decide)

/-- C7 counterexample: an entry of age exactly 30 days exists in the store and
its age does not exceed 30 days, yet `_get_cached_result` returns absent — so
"absent exactly when no entry exists or the age exceeds 30 days" is false at
the boundary (the code keeps an entry only while its age is strictly below 30
days). -/
theorem get_cached_boundary_counterexample :
    cacheLookup (cache_key "a") [(cache_key "a", storedFresh)] = some storedFresh ∧
    storedFresh.timestamp = some 0 ∧
    envBoundary.now - 0 = thirtyDays ∧
    ¬ thirtyDays < envBoundary.now - 0 ∧
    get_cached_result envBoundary [(cache_key "a", storedFresh)] "a" = none := by
  with_unfolding_all decide

/-- C7 amended: on a cache whose entries all carry timestamps (as every entry
written by `_cache_result` does), `get` returns absent exactly when no entry
exists for the case-folded key or the entry's age is **at least** 30 days; the
lookup never mutates the store, so an expired entry merely stops being
returned. -/
theorem get_cached_absent_iff (env : Env) (cache : Cache) (a : String)
    (hts : ∀ p ∈ cache, p.2.timestamp ≠ none) :
    (get_cached_result env cache a = none ↔
      (cacheLookup (cache_key a) cache = none ∨
       ∃ r ts, cacheLookup (cache_key a) cache = some r ∧ r.timestamp = some ts ∧
         thirtyDays ≤ env.now - ts)) := by
  unfold get_cached_result
  cases hl : cacheLookup (cache_key a) cache with
  | none => simp
  | some r =>
    obtain ⟨k', hm⟩ := cacheLookup_mem hl
    cases hts2 : r.timestamp with
    | none => exact absurd hts2 (hts _ hm)
    | some ts =>
      by_cases hlt : env.now - ts < thirtyDays
      · simp [hts2, if_pos hlt, not_le.2 hlt]
      · simp [hts2, if_neg hlt, not_lt.1 hlt]

/-- Witness for C7 amended: at the 30-day boundary the entry is reported
absent through the right-hand disjunct. -/
theorem get_cached_absent_iff_witness :
    (get_cached_result envBoundary [(cache_key "a", storedFresh)] "a" = none ↔
      (cacheLookup (cache_key "a") [(cache_key "a", storedFresh)] = none ∨
       ∃ r ts, cacheLookup (cache_key "a") [(cache_key "a", storedFresh)] = some r ∧
         r.timestamp = some ts ∧ thirtyDays ≤ envBoundary.now - ts)) :=
  get_cached_absent_iff envBoundary [(cache_key "a", storedFresh)] "a"
    (by with_unfolding_all decide)

/-- C1: starting from a cache whose entries are in bounds, every result
`geocode` returns with non-null coordinates satisfies the inclusive India
bounds check, and the final cache again only holds in-bounds entries;
moreover a candidate whose coordinates fail the bounds check is never
accepted by `_validate_result`, regardless of its provider confidence. -/
theorem geocode_bounds_invariant (env : Env) (n : Nat) (a : String) (cache : Cache)
    (hc : CacheInBounds cache) :
    (ResultInBounds (geocode env n a cache).1 ∧
     CacheInBounds (geocode env n a cache).2.1) ∧
    ∀ cand m, is_within_india_bounds cand.latitude cand.longitude = false →
      (validate_result env cand m).1 = false := by
  refine ⟨?_, ?_⟩
  · induction n generalizing a cache hc with
    | zero =>
      rw [geocode_zero]
      exact geocode_step_bounds env none a cache (by intro f hf; cases hf) hc
    | succ k ih =>
      rw [geocode_succ]
      refine geocode_step_bounds env _ a cache ?_ hc
      intro f hf v c hcc
      cases hf
      exact ih v c hcc
  · intro cand m hb
    cases hv : (validate_result env cand m).1 with
    | false => rfl
    | true => rw [validate_result_bounds hv] at hb; cases hb

/-- Witness for C1: the empty cache is in bounds, and the spec's New York City
candidate (outside the India box) is rejected by validation whatever its
confidence (here 0.95). -/
theorem geocode_bounds_invariant_witness :
    is_within_india_bounds candNYC.latitude candNYC.longitude = false ∧
    (validate_result envNone candNYC metaEmpty).1 = false :=
  ⟨by with_unfolding_all decide,
   (geocode_bounds_invariant envNone 0 "x" [] (by intro p hp; cases hp)).2
     candNYC metaEmpty (by with_unfolding_all decide)⟩

/-- C3: on a cache with no stored failures, whenever `geocode` returns a
result carrying the error tag it is exactly the terminal failure dict (null
coordinates, confidence 0, source `"none"`), the cache is completely unchanged
by the call (so in particular the entry for the input's key is unchanged), and
the final cache again stores no failures; the terminal dict has the claimed
shape.  The embedding is total, so no exception channel exists. -/
theorem geocode_terminal_failure (env : Env) (n : Nat) (a : String) (cache : Cache)
    (hc : CacheNoError cache) :
    ((geocode env n a cache).1.error.isSome = true →
      (geocode env n a cache).1 = failure_result ∧
      (geocode env n a cache).2.1 = cache) ∧
    CacheNoError (geocode env n a cache).2.1 ∧
    failure_result.latitude = none ∧ failure_result.longitude = none ∧
    failure_result.confidence = 0 ∧ failure_result.source = "none" ∧
    failure_result.error.isSome = true := by
  refine ⟨?_, ?_, rfl, rfl, rfl, rfl, rfl⟩
  all_goals
    have main : ∀ (a : String) (cache : Cache), CacheNoError cache →
        (((geocode env n a cache).1.error.isSome = true →
          (geocode env n a cache).1 = failure_result ∧
          (geocode env n a cache).2.1 = cache) ∧
         CacheNoError (geocode env n a cache).2.1) := by
      induction n with
      | zero =>
        intro a cache hcc
        rw [geocode_zero]
        exact geocode_step_failure_frame env none a cache (by intro f hf; cases hf) hcc
      | succ k ih =>
        intro a cache hcc
        rw [geocode_succ]
        refine geocode_step_failure_frame env _ a cache ?_ hcc
        intro f hf v c hcv
        cases hf
        exact ih v c hcv
  · exact (main a cache hc).1
  · exact (main a cache hc).2

/-- Witness for C3: with no key, absent providers and no variations, the call
returns the terminal failure dict and leaves the (empty) cache untouched. -/
theorem geocode_terminal_failure_witness :
    (geocode envNone 0 "x" []).1 = failure_result ∧
    (geocode envNone 0 "x" []).2.1 = [] :=
  (geocode_terminal_failure envNone 0 "x" [] (by intro p hp; cases hp)).1
    (by with_unfolding_all decide)

/-- C2: in the variation-retry scenario `envVar` the first variation `"D"`
fails terminally, yet `geocode` returns that terminal failure at once: the
trace shows the second variation `"X, ST"` is never attempted, even though
recursing on it would have succeeded (Nominatim resolves it with `error =
none`).  The `if result:` guard in the loop cannot skip a failed recursive
attempt because `geocode` always returns a non-empty (truthy) dict. -/
theorem geocode_first_variation_short_circuit :
    generate_address_variations envVar "X" metaX = ["D", "X, ST"] ∧
    (geocode envVar 3 "X" []).1 = failure_result ∧
    (geocode envVar 3 "X" []).2.2 =
      [Event.nominatimCall "X", Event.nominatimCall "D"] ∧
    Event.nominatimCall "X, ST" ∉ (geocode envVar 3 "X" []).2.2 ∧
    (geocode envVar 2 "X, ST" []).1.error = none ∧
    (geocode envVar 2 "X, ST" []).1.source = "nominatim" := by
  with_unfolding_all decide

/-- C8: whenever the cache misses and the primary (google) attempt produces no
accepted candidate — because the provider returned absent **or** because its
candidate was rejected by bounds, ML acceptance or the confidence floor — the
secondary (nominatim) provider is called on the processed address. -/
theorem geocode_fallback_to_nominatim (env : Env) (n : Nat) (a : String) (cache : Cache)
    (hmiss : get_cached_result env cache a = none)
    (hg : (geocode_google env (env.process_address a).1).1 = none ∨
          ∃ c, (geocode_google env (env.process_address a).1).1 = some c ∧
            (validate_result env c (env.process_address a).2).1 = false) :
    Event.nominatimCall (env.process_address a).1 ∈ (geocode env n a cache).2.2 := by
  have hfst : (try_provider env a (env.process_address a).2 cache
      (geocode_google env (env.process_address a).1)).1 = none := by
    rcases hg with h | ⟨c, h, hv⟩
    · rw [try_provider_absent h]
    · rw [try_provider_rejected h hv]
  have hgp : try_provider env a (env.process_address a).2 cache
      (geocode_google env (env.process_address a).1) =
      (none, (try_provider env a (env.process_address a).2 cache
        (geocode_google env (env.process_address a).1)).2) := by
    rw [← hfst]
  have hmem : ∀ recurse, Event.nominatimCall (env.process_address a).1 ∈
      (geocode_step env recurse a cache).2.2 := by
    intro recurse
    have hnmem : Event.nominatimCall (env.process_address a).1 ∈
        (try_provider env a (env.process_address a).2 cache
          (geocode_nominatim env (env.process_address a).1)).2 := by
      unfold try_provider geocode_nominatim
      cases h : env.nominatimRaw (env.process_address a).1 with
      | none => simp [h]
      | some c =>
        simp only [h, Option.map_some]
        by_cases hv : (validate_result env { c with source := "nominatim" }
            (env.process_address a).2).1 = true
        · simp [hv]
        · simp [hv]
    rcases hn : try_provider env a (env.process_address a).2 cache
        (geocode_nominatim env (env.process_address a).1) with ⟨onm, evsN⟩
    rw [hn] at hnmem
    cases onm with
    | some rc =>
      rw [geocode_step_nominatim_accept hmiss hgp hn]
      exact List.mem_append_right _ hnmem
    | none =>
      cases recurse with
      | none =>
        rw [geocode_step_fail_none hmiss hgp hn]
        exact List.mem_append_right _ hnmem
      | some f =>
        cases hvars : generate_address_variations env (env.process_address a).1
            (env.process_address a).2 with
        | nil =>
          rw [geocode_step_rec_nil hmiss hgp hn hvars]
          exact List.mem_append_left _ (List.mem_append_right _ hnmem)
        | cons v rest =>
          rw [geocode_step_rec_cons hmiss hgp hn hvars]
          exact List.mem_append_left _ (List.mem_append_right _ hnmem)
  cases n with
  | zero => rw [geocode_zero]; exact hmem none
  | succ k => rw [geocode_succ]; exact hmem _

/-- Witness for C8: with no Google key the primary attempt is absent, and the
trace of the call contains the Nominatim call on `"x"`. -/
theorem geocode_fallback_to_nominatim_witness :
    Event.nominatimCall "x" ∈ (geocode envNone 0 "x" []).2.2 :=
  geocode_fallback_to_nominatim envNone 0 "x" []
    (by with_unfolding_all decide) (Or.inl (by with_unfolding_all decide))

theorem first_variation_result_fuel_eq
    (fF : String → Cache → Option (GeoResult × Cache × List Event))
    (fR : String → Cache → GeoResult × Cache × List Event)
    (h : ∀ v c, fF v c = some (fR v c)) :
    ∀ (l : List String) (cache : Cache),
      first_variation_result_fuel fF l cache =
        some (first_variation_result fR l cache) := by
  intro l
  induction l with
  | nil => intro cache; rfl
  | cons v rest ih =>
    intro cache
    rcases hr : fR v cache with ⟨r, c2, evs⟩
    have hF := h v cache
    rw [hr] at hF
    simp only [first_variation_result_fuel, first_variation_result, hF, hr,
      result_truthy, if_true]

theorem geocode_step_fuel_none_eq (env : Env) (a : String) (cache : Cache) :
    geocode_step_fuel env none a cache = some (geocode_step env none a cache) := by
  simp only [geocode_step_fuel, geocode_step]
  cases hget : get_cached_result env cache a with
  | some r => rfl
  | none =>
    rcases hg : try_provider env a (env.process_address a).2 cache
        (geocode_google env (env.process_address a).1) with ⟨og, evsG⟩
    cases og with
    | some rc => rfl
    | none =>
      rcases hn : try_provider env a (env.process_address a).2 cache
          (geocode_nominatim env (env.process_address a).1) with ⟨onm, evsN⟩
      cases onm <;> rfl

theorem geocode_step_fuel_some_eq (env : Env) (a : String) (cache : Cache)
    (fF : String → Cache → Option (GeoResult × Cache × List Event))
    (fR : String → Cache → GeoResult × Cache × List Event)
    (h : ∀ v c, fF v c = some (fR v c)) :
    geocode_step_fuel env (some fF) a cache =
      some (geocode_step env (some fR) a cache) := by
  simp only [geocode_step_fuel, geocode_step]
  cases hget : get_cached_result env cache a with
  | some r => rfl
  | none =>
    rcases hg : try_provider env a (env.process_address a).2 cache
        (geocode_google env (env.process_address a).1) with ⟨og, evsG⟩
    cases og with
    | some rc => rfl
    | none =>
      rcases hn : try_provider env a (env.process_address a).2 cache
          (geocode_nominatim env (env.process_address a).1) with ⟨onm, evsN⟩
      cases onm with
      | some rc => rfl
      | none =>
        rw [first_variation_result_fuel_eq fF fR h]
        rcases hv : first_variation_result fR (generate_address_variations env
            (env.process_address a).1 (env.process_address a).2) cache with ⟨o, c2, evsV⟩
        cases o <;> rfl

/-- C9: `geocode` terminates on every input.  The variation-retry recursion is
well-founded: each recursive call runs at budget `retry_count - 1`, recursion
happens only at positive budget, and the variation list is finite, so fuel
`retry_count + 1` always suffices — the fuel-indexed re-run of the same step
function never reports fuel exhaustion when given more fuel than the retry
budget, bounding every call chain by `retry_count + 1` activations.  (That
`geocode` is definable by structural recursion on the budget is itself the
termination argument.) -/
theorem geocode_fuel_refines (env : Env) :
    ∀ (n fuel : Nat), n < fuel → ∀ (a : String) (cache : Cache),
      geocode_fuel env fuel n a cache = some (geocode env n a cache) := by
  intro n
  induction n with
  | zero =>
    intro fuel hf a cache
    cases fuel with
    | zero => exact absurd hf (by simp)
    | succ f =>
      rw [geocode_zero]
      exact geocode_step_fuel_none_eq env a cache
  | succ k ih =>
    intro fuel hf a cache
    cases fuel with
    | zero => exact absurd hf (by simp)
    | succ f =>
      rw [geocode_succ]
      exact geocode_step_fuel_some_eq env a cache _ _
        (fun v c => ih f (Nat.lt_of_succ_lt_succ hf) v c)

/-- Witness for C9: at retry budget 3, fuel 4 suffices on the variation
scenario. -/
theorem geocode_fuel_refines_witness :
    geocode_fuel envVar 4 3 "X" [] = some (geocode envVar 3 "X" []) :=
  geocode_fuel_refines envVar 3 4 (by decide) "X" []

/-- C10: when the top-level providers fail for `a` and the call succeeds
through the recursive attempt on the first variation `v` (here: `v`'s own
primary attempt is accepted), the accepted result is cached under `v`'s key
only: the final cache is `cacheInsert` at `cache_key v`, the entry for
`cache_key a` is unchanged, and a later lookup of `a` still misses, so a later
`geocode a` re-runs provider resolution instead of short-circuiting. -/
theorem geocode_variation_success_frame (env : Env) (k : Nat) (a v : String)
    (rest : List String) (cache : Cache) (gr : GeoResult) (c2 : Cache)
    (evsv : List Event)
    (h1 : get_cached_result env cache a = none)
    (h2 : (try_provider env a (env.process_address a).2 cache
            (geocode_google env (env.process_address a).1)).1 = none)
    (h3 : (try_provider env a (env.process_address a).2 cache
            (geocode_nominatim env (env.process_address a).1)).1 = none)
    (h4 : generate_address_variations env (env.process_address a).1
            (env.process_address a).2 = v :: rest)
    (h5 : get_cached_result env cache v = none)
    (h6 : try_provider env v (env.process_address v).2 cache
            (geocode_google env (env.process_address v).1) = (some (gr, c2), evsv))
    (h7 : cache_key v ≠ cache_key a) :
    (geocode env (k + 1) a cache).1 = gr ∧
    (geocode env (k + 1) a cache).2.1 = c2 ∧
    cacheLookup (cache_key v) c2 = some gr ∧
    cacheLookup (cache_key a) c2 = cacheLookup (cache_key a) cache ∧
    get_cached_result env ((geocode env (k + 1) a cache).2.1) a = none := by
  have hinner : geocode env k v cache = (gr, c2, evsv) := by
    cases k with
    | zero => rw [geocode_zero]; rw [geocode_step_google_accept h5 h6]
    | succ k' => rw [geocode_succ]; rw [geocode_step_google_accept h5 h6]
  have hgp : try_provider env a (env.process_address a).2 cache
      (geocode_google env (env.process_address a).1) =
      (none, (try_provider env a (env.process_address a).2 cache
        (geocode_google env (env.process_address a).1)).2) := by
    rw [← h2]
  have hnp : try_provider env a (env.process_address a).2 cache
      (geocode_nominatim env (env.process_address a).1) =
      (none, (try_provider env a (env.process_address a).2 cache
        (geocode_nominatim env (env.process_address a).1)).2) := by
    rw [← h3]
  have houter : geocode env (k + 1) a cache =
      (gr, c2, (try_provider env a (env.process_address a).2 cache
          (geocode_google env (env.process_address a).1)).2 ++
        (try_provider env a (env.process_address a).2 cache
          (geocode_nominatim env (env.process_address a).1)).2 ++ evsv) := by
    rw [geocode_succ]
    rw [geocode_step_rec_cons h1 hgp hnp h4]
    rw [hinner]
  obtain ⟨-, -, hc2⟩ := try_provider_some_shape h6
  have hc2' : c2 = cacheInsert (cache_key v) gr cache := hc2
  have hlkv : cacheLookup (cache_key v) c2 = some gr := by
    rw [hc2']
    simp [cacheInsert, cacheLookup]
  have hlka : cacheLookup (cache_key a) c2 = cacheLookup (cache_key a) cache := by
    rw [hc2']
    simp [cacheInsert, cacheLookup, beq_eq_false_iff_ne.mpr h7]
  refine ⟨by rw [houter], by rw [houter], hlkv, hlka, ?_⟩
  rw [houter]
  rw [@get_cached_result_congr env c2 cache a hlka]
  exact h1

/-- Witness for C10: in `envFrame`, address `"A"` fails at top level, the first
variation `"D"` resolves through Google, the result is cached under `"d"` only,
and `"A"` still misses the cache afterwards. -/
theorem geocode_variation_success_frame_witness :
    (geocode envFrame 3 "A" []).1 = frameResult ∧
    (geocode envFrame 3 "A" []).2.1 = [("d", frameResult)] ∧
    cacheLookup (cache_key "D") [("d", frameResult)] = some frameResult ∧
    cacheLookup (cache_key "A") [("d", frameResult)] = cacheLookup (cache_key "A") [] ∧
    get_cached_result envFrame ((geocode envFrame 3 "A" []).2.1) "A" = none :=
  geocode_variation_success_frame envFrame 2 "A" "D" ["A, ST"] [] frameResult
    [("d", frameResult)] [Event.googleCall "D", Event.mlCall, Event.cacheWrite "d"]
    (by with_unfolding_all decide) (by with_unfolding_all decide)
    (by with_unfolding_all decide) (by with_unfolding_all decide)
    (by with_unfolding_all decide) (by with_unfolding_all decide)
    (by with_unfolding_all decide)

end CollegeLinks
